import Mathlib

/-!
# Verification of the APRS weather packet submitter

A shallow embedding of `src/aprs-is-wx.py`: the weather-packet encoder
(`make_aprs_wx` with its inner `str_or_dots`), the coordinate formatter
(`convert_coordinates_to_aprs_format`), the observation-ingestion function
(`get_wx_data`), the retrying publisher (`send_aprs_with_retry`), the
per-attempt socket session, and the top-level `main` control flow.

Python floats are modelled as exact rationals (`ℚ`); the float-to-string
formats `%d`, `%.2f`, `%.0f` and `str.zfill` are modelled with exact decimal
rendering and round-half-to-even, which agrees with CPython on the inputs
considered here.  The float power function used by the barometric elevation
correction is not exactly representable and is kept as an abstract parameter
`pw`; no claim depends on its value.
-/

namespace AprsWx

/-! ## Decimal rendering (Python `"%d"` formatting and `str.zfill`) -/

/-- Decimal digit characters of a natural number, most significant first.
The first argument is recursion fuel (any `fuel > n` is enough). -/
def natDecChars (fuel : Nat) (n : Nat) : List Char :=
  match fuel with
  | 0 => []
  | f + 1 =>
    if n < 10 then [Nat.digitChar n]
    else natDecChars f (n / 10) ++ [Nat.digitChar (n % 10)]

/-- Decimal rendering of a natural number, as Python `"%d"` produces. -/
def natDecimal (n : Nat) : String :=
  String.mk (natDecChars (n + 1) n)

/-- Decimal rendering of an integer, as Python `"%d"` produces. -/
def intDecimal (n : Int) : String :=
  if n < 0 then "-" ++ natDecimal (-n).toNat else natDecimal n.toNat

/-- Python `str.zfill` on a character list: pad with `'0'` on the left up to
`width`, keeping a leading sign character in place; never truncates. -/
def zfillList (cs : List Char) (width : Nat) : List Char :=
  match cs with
  | [] => List.replicate width '0'
  | c :: rest =>
    if c = '-' ∨ c = '+' then
      c :: (List.replicate (width - cs.length) '0' ++ rest)
    else
      List.replicate (width - cs.length) '0' ++ cs

/-- Python `str.zfill`. -/
def zfill (s : String) (width : Nat) : String :=
  String.mk (zfillList s.data width)

/-- A run of `length` dot characters: Python `"." * length`. -/
def dots (length : Nat) : String :=
  String.mk (List.replicate length '.')

/-! ## `str_or_dots` (inner helper of `make_aprs_wx`) -/

/-- A Python number as passed to `str_or_dots`: either an `int` or a `float`
(the float held as the exact rational it denotes). -/
inductive PyNum where
  | intVal (n : Int)
  | floatVal (q : ℚ)

/-- Round to the nearest integer, ties to even: the rounding CPython's
`"%.0f"` / `"%.2f"` formats apply. -/
def roundHalfEven (q : ℚ) : Int :=
  if q - ⌊q⌋ < 1/2 then ⌊q⌋
  else if 1/2 < q - ⌊q⌋ then ⌊q⌋ + 1
  else if ⌊q⌋ % 2 = 0 then ⌊q⌋ else ⌊q⌋ + 1

/-- Python `int()` applied to a float: truncation toward zero. -/
def ratTrunc (q : ℚ) : Int :=
  if 0 ≤ q then ⌊q⌋ else ⌈q⌉

/-- `str_or_dots(number, length)` from `make_aprs_wx`: `None` renders as
`length` dots; an `int` renders via `"%d"` and `zfill`; a `float` renders via
`"%.0f"` (round to nearest integer) and `zfill`.  (`zfill` pads but never
truncates, so a value needing more than `length` digits overflows the field.) -/
def str_or_dots : Option PyNum → Nat → String
  | none, length => dots length
  | some (PyNum.intVal n), length => zfill (intDecimal n) length
  | some (PyNum.floatVal q), length => zfill (intDecimal (roundHalfEven q)) length

/-! ## Time field

The source computes `time.strftime("%d%H%M")`, which formats the *local*
time of the process (CPython's `strftime` with no second argument uses
`localtime()`), even though the surrounding code labels it Zulu/UTC. -/

/-- Day-of-month, hour and minute, as delivered by `strftime`. -/
structure TimeTriple where
  day : Nat
  hour : Nat
  minute : Nat
deriving DecidableEq

/-- `time.strftime("%d%H%M")` applied to a broken-down time: each component
zero-padded to two digits. -/
def timeStringZulu (t : TimeTriple) : String :=
  zfill (natDecimal t.day) 2 ++ zfill (natDecimal t.hour) 2 ++ zfill (natDecimal t.minute) 2

/-! ## Coordinate formatting (`convert_coordinates_to_aprs_format`) -/

/-- Python `f"{q:0W.2f}"` for the nonnegative minutes values produced by the
coordinate formatter: round to two decimals, render with exactly two decimal
places, zero-pad on the left to `width`. -/
def formatMinutes (q : ℚ) (width : Nat) : String :=
  zfill
    (natDecimal ((roundHalfEven (q * 100)).toNat / 100) ++ "." ++
      zfill (natDecimal ((roundHalfEven (q * 100)).toNat % 100)) 2)
    width

/-- `convert_coordinates_to_aprs_format(lat, lon)`: decimal degrees to the
APRS `DDMM.mmH` / `DDDMM.mmH` strings. -/
def convert_coordinates_to_aprs_format (lat lon : ℚ) : String × String :=
  (zfill (natDecimal ⌊|lat|⌋.toNat) 2 ++
      formatMinutes ((|lat| - (⌊|lat|⌋.toNat : ℚ)) * 60) 5 ++
      (if 0 ≤ lat then "N" else "S"),
    zfill (natDecimal ⌊|lon|⌋.toNat) 3 ++
      formatMinutes ((|lon| - (⌊|lon|⌋.toNat : ℚ)) * 60) 5 ++
      (if 0 ≤ lon then "E" else "W"))

/-! ## The weather packet encoder (`make_aprs_wx`) -/

/-- The configuration fields consumed by the encoder (from `load_config`). -/
structure StationConfig where
  elevation : ℚ
  stationLat : ℚ
  stationLon : ℚ
  stationType : String

/-- The APRS-unit weather dictionary produced by `get_wx_data`: every field
optional; `wind_dir` and `pressure` are Python ints, the rest floats. -/
structure AprsData where
  temperature : Option ℚ
  pressure : Option Int
  humidity : Option ℚ
  wind_dir : Option Int
  wind_speed : Option ℚ
  wind_gust : Option ℚ
  rain_since_midnight : Option ℚ

/-- The dictionary with every field `None`. -/
def emptyAprsData : AprsData :=
  ⟨none, none, none, none, none, none, none⟩

/-- `make_aprs_wx(config, weather_data)`: assembles
`"@%sz%s/%s_%s/%sg%st%sP%sh%sb%s%s"` from the strftime string, the two
coordinate strings, the seven `str_or_dots` fields and the station type.
The time argument is the process-local broken-down time that
`time.strftime("%d%H%M")` formats. -/
def make_aprs_wx (config : StationConfig) (localNow : TimeTriple)
    (weather_data : AprsData) : String :=
  "@" ++ timeStringZulu localNow ++ "z" ++
    (convert_coordinates_to_aprs_format config.stationLat config.stationLon).1 ++ "/" ++
    (convert_coordinates_to_aprs_format config.stationLat config.stationLon).2 ++ "_" ++
    str_or_dots (weather_data.wind_dir.map PyNum.intVal) 3 ++ "/" ++
    str_or_dots (weather_data.wind_speed.map PyNum.floatVal) 3 ++ "g" ++
    str_or_dots (weather_data.wind_gust.map PyNum.floatVal) 3 ++ "t" ++
    str_or_dots (weather_data.temperature.map PyNum.floatVal) 3 ++ "P" ++
    str_or_dots (weather_data.rain_since_midnight.map PyNum.floatVal) 3 ++ "h" ++
    str_or_dots (weather_data.humidity.map PyNum.floatVal) 2 ++ "b" ++
    str_or_dots (weather_data.pressure.map PyNum.intVal) 5 ++
    config.stationType

/-! ## Observation ingestion (`get_wx_data`) -/

/-- A raw JSON field value: either numeric-convertible (held as the exact
rational) or one that makes `float()` / `int()` raise. -/
inductive RawVal where
  | num (q : ℚ)
  | malformed

/-- The parsed observation JSON object: the seven optional measurement
fields and their optional unit tags, in source order. -/
structure RawWeather where
  temperature : Option RawVal
  temperature_unit : Option String
  pressure : Option RawVal
  pressure_unit : Option String
  humidity : Option RawVal
  wind_direction : Option RawVal
  wind_speed : Option RawVal
  wind_speed_unit : Option String
  wind_gust : Option RawVal
  wind_gust_unit : Option String
  rain_since_midnight : Option RawVal
  rain_unit : Option String

/-- The observation JSON object with no fields present. -/
def emptyRawWeather : RawWeather :=
  ⟨none, none, none, none, none, none, none, none, none, none, none, none⟩

/-- The state of the observation source: file missing, file present but not
valid JSON, or successfully parsed. -/
inductive WxSource where
  | missing
  | invalidJson
  | parsed (w : RawWeather)

/-- The exceptions `get_wx_data` lets escape: `FileNotFoundError` re-raised
as is, and the `ValueError` raised for invalid JSON. -/
inductive WxError where
  | fileNotFound
  | invalidFormat

/-- Python `float(value)`: succeeds on a numeric value, raises otherwise. -/
def toNumber : RawVal → Except Unit ℚ
  | RawVal.num q => Except.ok q
  | RawVal.malformed => Except.error ()

/-- Temperature conversion from `get_wx_data`: Celsius (the default unit) to
Fahrenheit. -/
def convertTemperature (v : ℚ) (unit : Option String) : ℚ :=
  if (unit.getD "C").toUpper = "C" then 9.0/5.0 * v + 32 else v

/-- Pressure conversion from `get_wx_data`: optional inHg to hPa, optional
barometric elevation correction (gated on `elevation > 0`; `pw` stands for
the float power function), then tenths of hPa truncated to int. -/
def convertPressure (pw : ℚ → ℚ → ℚ) (v : ℚ) (unit : Option String)
    (elevation : ℚ) : Int :=
  let p := if (unit.getD "hPa").toLower = "inhg" then v * 33.8639 else v
  let p' := if 0 < elevation then
      p * pw (1.0 + 0.000084229 * (elevation / pw p 0.19028)) 5.2553
    else p
  ratTrunc (p' * 10)

/-- Wind speed conversion from `get_wx_data`: m/s or km/h to mph (mph is the
default unit). -/
def convertWindSpeed (v : ℚ) (unit : Option String) : ℚ :=
  let u := (unit.getD "mph").toLower
  if u = "m/s" then v * 2.23694
  else if u = "km/h" then v * 0.621371
  else v

/-- Rain conversion from `get_wx_data`: mm to inches (inches is the default
unit). -/
def convertRain (v : ℚ) (unit : Option String) : ℚ :=
  if (unit.getD "in").toLower = "mm" then v * 0.0393701 else v

/-- The body of `get_wx_data`'s `try` block after `json.load` succeeded:
process the fields in source order; the first unconvertible value raises
(into the enclosing handler). -/
def processRaw (pw : ℚ → ℚ → ℚ) (w : RawWeather) (elevation : ℚ) :
    Except Unit AprsData := do
  let temperature ← match w.temperature with
    | none => pure none
    | some v => do
        pure (some (convertTemperature (← toNumber v) w.temperature_unit))
  let pressure ← match w.pressure with
    | none => pure none
    | some v => do
        pure (some (convertPressure pw (← toNumber v) w.pressure_unit elevation))
  let humidity ← match w.humidity with
    | none => pure none
    | some v => do pure (some (← toNumber v))
  let wind_dir ← match w.wind_direction with
    | none => pure none
    | some v => do pure (some (ratTrunc (← toNumber v)))
  let wind_speed ← match w.wind_speed with
    | none => pure none
    | some v => do
        pure (some (convertWindSpeed (← toNumber v) w.wind_speed_unit))
  let wind_gust ← match w.wind_gust with
    | none => pure none
    | some v => do
        pure (some (convertWindSpeed (← toNumber v)
          (w.wind_gust_unit.orElse fun _ => w.wind_speed_unit)))
  let rain ← match w.rain_since_midnight with
    | none => pure none
    | some v => do pure (some (convertRain (← toNumber v) w.rain_unit))
  pure ⟨temperature, pressure, humidity, wind_dir, wind_speed, wind_gust, rain⟩

/-- `get_wx_data(json_file, elevation)`: a missing file re-raises
`FileNotFoundError`; invalid JSON raises `ValueError`; any other exception
while processing fields — in particular a field value `float()` / `int()`
cannot convert — is caught by the final `except Exception` handler, which
returns the dictionary with every field `None`. -/
def get_wx_data (pw : ℚ → ℚ → ℚ) : WxSource → ℚ → Except WxError AprsData
  | WxSource.missing, _ => Except.error WxError.fileNotFound
  | WxSource.invalidJson, _ => Except.error WxError.invalidFormat
  | WxSource.parsed w, elevation =>
    match processRaw pw w elevation with
    | Except.ok d => Except.ok d
    | Except.error _ => Except.ok emptyAprsData

/-! ## The retrying publisher (`send_aprs_with_retry`)

One publish attempt is abstracted by its outcome: the weather-packet send
either returns normally (`success`), raises one of the caught network
exception classes (`timeout`, `error`, `ConnectionRefusedError`,
`ConnectionResetError` — `netError`), or raises anything else
(`otherError`).  `outcomes i` is the outcome of attempt `i` (0-based). -/

/-- Outcome of one publish attempt. -/
inductive AttemptResult where
  | success
  | netError
  | otherError
deriving DecidableEq

/-- The `for attempt in range(max_retries)` loop of `send_aprs_with_retry`,
with `remaining` iterations left and `attempt` the current 0-based index.
Returns the Python return value (`none` models falling off the loop without
`return`, i.e. Python `None`), the number of attempts performed, and the
list of inter-retry sleep durations in order. -/
def sendLoopAux (outcomes : Nat → AttemptResult) (retry_delay : Int)
    (attempt : Nat) : Nat → Option Bool × Nat × List Int
  | 0 => (none, 0, [])
  | remaining + 1 =>
    match outcomes attempt with
    | AttemptResult.success => (some true, 1, [])
    | AttemptResult.netError =>
      if remaining = 0 then
        (some false, 1, [])
      else
        match sendLoopAux outcomes retry_delay (attempt + 1) remaining with
        | (r, n, s) => (r, n + 1, retry_delay :: s)
    | AttemptResult.otherError => (some false, 1, [])

/-- `send_aprs_with_retry(config, wx, max_retries, retry_delay)`.  Returns
`(return value, attempts performed, inter-retry sleeps)`; Python's
`range` makes a nonpositive `max_retries` an empty loop. -/
def send_aprs_with_retry (outcomes : Nat → AttemptResult)
    (max_retries retry_delay : Int) : Option Bool × Nat × List Int :=
  sendLoopAux outcomes retry_delay 0 max_retries.toNat

/-! ## One publish attempt as a session trace (resource handling)

The body of the `try` block executes, in order: `connect` (socket creation
and TCP connect), the login `send`, the packet `send`, the 3-second drain
sleep, `shutdown`, `close`.  There is no `finally`/`with`: when a step
raises, control jumps to the matching `except` handler, which logs and
either retries or returns — it never touches the socket. -/

/-- The steps of one publish attempt, in program order. -/
inductive SessionStep where
  | connect
  | sendLogin
  | sendPacket
  | drainSleep
  | shutdownSock
  | closeSock
deriving DecidableEq

/-- The steps of the `try` block in execution order. -/
def attemptSteps : List SessionStep :=
  [SessionStep.connect, SessionStep.sendLogin, SessionStep.sendPacket,
    SessionStep.drainSleep, SessionStep.shutdownSock, SessionStep.closeSock]

/-- The steps that complete during one attempt when `failAt` is the first
step to raise (`none`: nothing raises and the attempt returns `True`). -/
def attemptTrace (failAt : Option SessionStep) : List SessionStep :=
  match failAt with
  | none => attemptSteps
  | some s => attemptSteps.takeWhile (fun x => x ≠ s)

/-! ## The top-level control flow (`main`) -/

/-- `main()`.  Inputs model the external collaborators: the `load_config`
result, the observation source, the local broken-down time, the outcome
stream of the weather-packet publish attempts and of the status publish
attempts, and the `uptime()` result.  `send_aprs_with_retry` is called with
its default `max_retries=3, retry_delay=5`.  The result is the process exit
status: `1` when an exception escapes the outer `try`, else `0`. -/
def mainModel (pw : ℚ → ℚ → ℚ) (configResult : Except Unit StationConfig)
    (source : WxSource) (localNow : TimeTriple)
    (wxOutcomes statusOutcomes : Nat → AttemptResult)
    (uptimeResult : Except Unit String) : Int :=
  match configResult with
  | Except.error _ => 1
  | Except.ok config =>
    match get_wx_data pw source config.elevation with
    | Except.error _ => 1
    | Except.ok weather_data =>
      let _wx := make_aprs_wx config localNow weather_data
      match (send_aprs_with_retry wxOutcomes 3 5).1 with
      | some true =>
        -- the status send is attempted only on success; its own failure is
        -- caught by the inner handler and its result is discarded
        let _status := match uptimeResult with
          | Except.ok _ => (send_aprs_with_retry statusOutcomes 3 5).1
          | Except.error _ => none
        0
      | _ => 0

end AprsWx

namespace AprsWx

/-! ## String-length helper lemmas -/

theorem strLength_mk (l : List Char) : (String.mk l).length = l.length := rfl

theorem strLength_append (s t : String) : (s ++ t).length = s.length + t.length := by
  cases s
  cases t
  simp [String.length, String.append]

theorem strAppend_assoc (s t u : String) : s ++ t ++ u = s ++ (t ++ u) :=
  String.append_assoc s t u

theorem dots_length (n : Nat) : (dots n).length = n := by
  show (String.mk (List.replicate n '.')).length = n
  rw [strLength_mk, List.length_replicate]

theorem zfillList_length (cs : List Char) (w : Nat) :
    (zfillList cs w).length = max cs.length w := by
  cases cs with
  | nil => simp [zfillList]
  | cons c rest =>
    simp only [zfillList]
    by_cases h : c = '-' ∨ c = '+'
    · rw [if_pos h]
      simp only [List.length_cons, List.length_append, List.length_replicate]
      omega
    · rw [if_neg h]
      simp only [List.length_cons, List.length_append, List.length_replicate]
      omega

theorem zfill_length (s : String) (w : Nat) : (zfill s w).length = max s.length w := by
  rw [zfill, strLength_mk, zfillList_length]
  rfl

/-! ## Decimal-rendering helper lemmas -/

theorem natDecChars_length_le (f : Nat) :
    ∀ n w, n < f → n < 10 ^ w → 1 ≤ w → (natDecChars f n).length ≤ w := by
  induction f with
  | zero => intro n w h; omega
  | succ f ih =>
    intro n w hf hw hw1
    unfold natDecChars
    by_cases h : n < 10
    · rw [if_pos h]
      simpa using hw1
    · rw [if_neg h]
      have h2 : 2 ≤ w := by
        by_contra hc
        have : w = 1 := by omega
        subst this
        simp at hw
        omega
      have hdivf : n / 10 < f := by
        have : n / 10 < n := Nat.div_lt_self (by omega) (by omega)
        omega
      have hdivw : n / 10 < 10 ^ (w - 1) := by
        rw [Nat.div_lt_iff_lt_mul (by omega)]
        calc n < 10 ^ w := hw
        _ = 10 ^ (w - 1) * 10 := by
            rw [← Nat.pow_succ]
            congr 1
            omega
      have := ih (n / 10) (w - 1) hdivf hdivw (by omega)
      simp only [List.length_append, List.length_cons, List.length_nil]
      omega

theorem natDecimal_length_le (n w : Nat) (hw : n < 10 ^ w) (hw1 : 1 ≤ w) :
    (natDecimal n).length ≤ w := by
  rw [natDecimal, strLength_mk]
  exact natDecChars_length_le (n + 1) n w (by omega) hw hw1

theorem intDecimal_length_le (n : Int) (w : Nat) (h0 : 0 ≤ n) (hw : n < 10 ^ w)
    (hw1 : 1 ≤ w) : (intDecimal n).length ≤ w := by
  rw [intDecimal, if_neg (by omega)]
  apply natDecimal_length_le
  · have : (n.toNat : Int) = n := Int.toNat_of_nonneg h0
    have hpow : ((10 ^ w : Nat) : Int) = 10 ^ w := by push_cast; ring
    omega
  · exact hw1

theorem str_or_dots_none (w : Nat) : str_or_dots none w = dots w := rfl

theorem str_or_dots_int_length (n : Int) (w : Nat) (h0 : 0 ≤ n) (hw : n < 10 ^ w)
    (hw1 : 1 ≤ w) : (str_or_dots (some (PyNum.intVal n)) w).length = w := by
  simp only [str_or_dots]
  rw [zfill_length]
  have := intDecimal_length_le n w h0 hw hw1
  omega

theorem str_or_dots_float_length (q : ℚ) (w : Nat) (h0 : 0 ≤ roundHalfEven q)
    (hw : roundHalfEven q < 10 ^ w) (hw1 : 1 ≤ w) :
    (str_or_dots (some (PyNum.floatVal q)) w).length = w := by
  simp only [str_or_dots]
  rw [zfill_length]
  have := intDecimal_length_le (roundHalfEven q) w h0 hw hw1
  omega

/-! ## Rounding helper lemmas -/

theorem roundHalfEven_natCast (n : Nat) : roundHalfEven (n : ℚ) = n := by
  unfold roundHalfEven
  rw [Int.floor_natCast]
  norm_num

theorem roundHalfEven_zero : roundHalfEven (0 : ℚ) = 0 := by
  simpa using roundHalfEven_natCast 0

theorem rhe_hundred : roundHalfEven (100 : ℚ) = 100 := by
  unfold roundHalfEven
  norm_num

theorem roundHalfEven_bounds (q : ℚ) :
    ⌊q⌋ ≤ roundHalfEven q ∧ roundHalfEven q ≤ ⌊q⌋ + 1 := by
  unfold roundHalfEven
  split_ifs <;> omega

/-! ## Coordinate-formatter helper lemmas -/

theorem formatMinutes_length (q : ℚ) (h0 : 0 ≤ q) (h60 : q < 60) :
    (formatMinutes q 5).length = 5 := by
  unfold formatMinutes
  rw [zfill_length, strLength_append, strLength_append, zfill_length]
  have hb := roundHalfEven_bounds (q * 100)
  have hfl : (0 : Int) ≤ ⌊q * 100⌋ := Int.floor_nonneg.mpr (by positivity)
  have hfu : ⌊q * 100⌋ < 6000 := by
    rw [Int.floor_lt]
    push_cast
    linarith
  have hc1 : (roundHalfEven (q * 100)).toNat ≤ 6000 := by omega
  have h1 : (natDecimal ((roundHalfEven (q * 100)).toNat / 100)).length ≤ 2 := by
    apply natDecimal_length_le _ 2 (by omega) (by omega)
  have h2 : (natDecimal ((roundHalfEven (q * 100)).toNat % 100)).length ≤ 2 := by
    apply natDecimal_length_le _ 2 (by omega) (by omega)
  have hdot : ("." : String).length = 1 := rfl
  rw [hdot]
  omega

theorem floorAbs_cast (x : ℚ) : ((⌊|x|⌋.toNat : ℚ)) = (⌊|x|⌋ : ℚ) := by
  have h : (0 : Int) ≤ ⌊|x|⌋ := Int.floor_nonneg.mpr (abs_nonneg x)
  exact_mod_cast Int.toNat_of_nonneg h

theorem minutes_bounds (x : ℚ) :
    0 ≤ (|x| - (⌊|x|⌋.toNat : ℚ)) * 60 ∧ (|x| - (⌊|x|⌋.toNat : ℚ)) * 60 < 60 := by
  rw [floorAbs_cast]
  have h1 : (⌊|x|⌋ : ℚ) ≤ |x| := Int.floor_le _
  have h2 : |x| < ⌊|x|⌋ + 1 := Int.lt_floor_add_one _
  constructor <;> nlinarith

theorem latStr_length (lat lon : ℚ) (h : |lat| ≤ 90) :
    ((convert_coordinates_to_aprs_format lat lon).1).length = 8 := by
  unfold convert_coordinates_to_aprs_format
  rw [strLength_append, strLength_append, zfill_length]
  have hd0 : (0 : Int) ≤ ⌊|lat|⌋ := Int.floor_nonneg.mpr (abs_nonneg lat)
  have hd : ⌊|lat|⌋ < 91 := by
    rw [Int.floor_lt]
    push_cast
    linarith [abs_nonneg lat]
  have h1 : (natDecimal ⌊|lat|⌋.toNat).length ≤ 2 := by
    apply natDecimal_length_le _ 2 (by omega) (by omega)
  have hm := minutes_bounds lat
  rw [formatMinutes_length _ hm.1 hm.2]
  have hNS : (if 0 ≤ lat then ("N" : String) else "S").length = 1 := by
    split_ifs <;> rfl
  rw [hNS]
  omega

theorem lonStr_length (lat lon : ℚ) (h : |lon| ≤ 180) :
    ((convert_coordinates_to_aprs_format lat lon).2).length = 9 := by
  unfold convert_coordinates_to_aprs_format
  rw [strLength_append, strLength_append, zfill_length]
  have hd0 : (0 : Int) ≤ ⌊|lon|⌋ := Int.floor_nonneg.mpr (abs_nonneg lon)
  have hd : ⌊|lon|⌋ < 181 := by
    rw [Int.floor_lt]
    push_cast
    linarith [abs_nonneg lon]
  have h1 : (natDecimal ⌊|lon|⌋.toNat).length ≤ 3 := by
    apply natDecimal_length_le _ 3 (by omega) (by omega)
  have hm := minutes_bounds lon
  rw [formatMinutes_length _ hm.1 hm.2]
  have hEW : (if 0 ≤ lon then ("E" : String) else "W").length = 1 := by
    split_ifs <;> rfl
  rw [hEW]
  omega

theorem coord_zero_zero :
    convert_coordinates_to_aprs_format 0 0 = ("0000.00N", "00000.00E") := by
  unfold convert_coordinates_to_aprs_format formatMinutes
  norm_num [roundHalfEven_zero]
  constructor <;> rfl

theorem timeStringZulu_length (t : TimeTriple) (hd : t.day < 100)
    (hh : t.hour < 100) (hm : t.minute < 100) :
    (timeStringZulu t).length = 6 := by
  unfold timeStringZulu
  rw [strLength_append, strLength_append, zfill_length, zfill_length, zfill_length]
  have h1 : (natDecimal t.day).length ≤ 2 := natDecimal_length_le _ 2 (by omega) (by omega)
  have h2 : (natDecimal t.hour).length ≤ 2 := natDecimal_length_le _ 2 (by omega) (by omega)
  have h3 : (natDecimal t.minute).length ≤ 2 := natDecimal_length_le _ 2 (by omega) (by omega)
  omega

/-! ## Two-digit rendering helper lemmas -/

theorem digitChar_not_sign (m : Nat) (hm : m < 10) :
    Nat.digitChar m ≠ '-' ∧ Nat.digitChar m ≠ '+' := by
  revert hm
  revert m
  decide

theorem natDecChars_small (f n : Nat) (hf : 1 ≤ f) (h : n < 10) :
    natDecChars f n = [Nat.digitChar n] := by
  obtain ⟨f', rfl⟩ : ∃ f', f = f' + 1 := ⟨f - 1, by omega⟩
  simp [natDecChars, h]

theorem natDecChars_two (f n : Nat) (hf : 2 ≤ f) (h1 : 10 ≤ n) (h2 : n < 100) :
    natDecChars f n = [Nat.digitChar (n / 10), Nat.digitChar (n % 10)] := by
  obtain ⟨f', rfl⟩ : ∃ f', f = f' + 1 := ⟨f - 1, by omega⟩
  simp only [natDecChars, if_neg (by omega : ¬n < 10)]
  rw [natDecChars_small f' (n / 10) (by omega) (by omega)]
  rfl

theorem natDecimal_lt_ten (n : Nat) (h : n < 10) :
    natDecimal n = String.mk [Nat.digitChar n] := by
  unfold natDecimal
  rw [natDecChars_small (n + 1) n (by omega) h]

theorem natDecimal_two_digits (n : Nat) (h1 : 10 ≤ n) (h2 : n < 100) :
    natDecimal n = String.mk [Nat.digitChar (n / 10), Nat.digitChar (n % 10)] := by
  unfold natDecimal
  rw [natDecChars_two (n + 1) n (by omega) h1 h2]

theorem zfill_two_of_digit (n : Nat) (h : n < 100) :
    zfill (natDecimal n) 2 = String.mk [Nat.digitChar (n / 10), Nat.digitChar (n % 10)] := by
  by_cases h10 : n < 10
  · rw [natDecimal_lt_ten n h10]
    rw [Nat.div_eq_of_lt h10, Nat.mod_eq_of_lt h10]
    show String.mk (zfillList [Nat.digitChar n] 2) = _
    rw [show zfillList [Nat.digitChar n] 2
        = List.replicate (2 - 1) '0' ++ [Nat.digitChar n] by
      simp [zfillList, (digitChar_not_sign n h10).1, (digitChar_not_sign n h10).2]]
    rfl
  · rw [natDecimal_two_digits n (by omega) h]
    show String.mk (zfillList [Nat.digitChar (n / 10), Nat.digitChar (n % 10)] 2) = _
    rw [show zfillList [Nat.digitChar (n / 10), Nat.digitChar (n % 10)] 2
        = List.replicate (2 - 2) '0' ++ [Nat.digitChar (n / 10), Nat.digitChar (n % 10)] by
      simp [zfillList, (digitChar_not_sign (n / 10) (by omega)).1,
        (digitChar_not_sign (n / 10) (by omega)).2]]
    rfl

/-! ## Encoded-field length helper lemmas -/

theorem field_len_int (o : Option Int) (w : Nat) (hw1 : 1 ≤ w)
    (hb : ∀ n, o = some n → 0 ≤ n ∧ n < 10 ^ w) :
    (str_or_dots (o.map PyNum.intVal) w).length = w := by
  cases o with
  | none => rw [Option.map_none', str_or_dots_none, dots_length]
  | some n =>
    rw [Option.map_some']
    exact str_or_dots_int_length n w (hb n rfl).1 (hb n rfl).2 hw1

theorem field_len_float (o : Option ℚ) (w : Nat) (hw1 : 1 ≤ w)
    (hb : ∀ q, o = some q → 0 ≤ roundHalfEven q ∧ roundHalfEven q < 10 ^ w) :
    (str_or_dots (o.map PyNum.floatVal) w).length = w := by
  cases o with
  | none => rw [Option.map_none', str_or_dots_none, dots_length]
  | some q =>
    rw [Option.map_some']
    exact str_or_dots_float_length q w (hb q rfl).1 (hb q rfl).2 hw1

/-! ## Retry-loop helper lemmas -/

theorem sendLoopAux_succ_success (o : Nat → AttemptResult) (d : Int) (a f : Nat)
    (h : o a = AttemptResult.success) :
    sendLoopAux o d a (f + 1) = (some true, 1, []) := by
  simp [sendLoopAux, h]

theorem sendLoopAux_succ_net_last (o : Nat → AttemptResult) (d : Int) (a : Nat)
    (h : o a = AttemptResult.netError) :
    sendLoopAux o d a 1 = (some false, 1, []) := by
  simp [sendLoopAux, h]

theorem sendLoopAux_succ_net (o : Nat → AttemptResult) (d : Int) (a f : Nat)
    (h : o a = AttemptResult.netError) (hf : f ≠ 0) :
    sendLoopAux o d a (f + 1) =
      ((sendLoopAux o d (a + 1) f).1, (sendLoopAux o d (a + 1) f).2.1 + 1,
        d :: (sendLoopAux o d (a + 1) f).2.2) := by
  rcases hrec : sendLoopAux o d (a + 1) f with ⟨r, n, s⟩
  simp [sendLoopAux, h, hf, hrec]

theorem sendLoopAux_succ_other (o : Nat → AttemptResult) (d : Int) (a f : Nat)
    (h : o a = AttemptResult.otherError) :
    sendLoopAux o d a (f + 1) = (some false, 1, []) := by
  simp [sendLoopAux, h]

theorem sendLoopAux_success_after (o : Nat → AttemptResult) (d : Int) :
    ∀ (k a f : Nat), k < f →
      (∀ i, i < k → o (a + i) = AttemptResult.netError) →
      o (a + k) = AttemptResult.success →
      sendLoopAux o d a f = (some true, k + 1, List.replicate k d) := by
  intro k
  induction k with
  | zero =>
    intro a f hf hner hsucc
    obtain ⟨f', rfl⟩ : ∃ f', f = f' + 1 := ⟨f - 1, by omega⟩
    rw [sendLoopAux_succ_success o d a f' (by simpa using hsucc)]
    rfl
  | succ k ih =>
    intro a f hf hner hsucc
    obtain ⟨f', rfl⟩ : ∃ f', f = f' + 1 := ⟨f - 1, by omega⟩
    have ha : o a = AttemptResult.netError := by simpa using hner 0 (by omega)
    rw [sendLoopAux_succ_net o d a f' ha (by omega)]
    rw [ih (a + 1) f' (by omega)
      (fun i hi => by
        have := hner (i + 1) (by omega)
        rwa [show a + (i + 1) = a + 1 + i by omega] at this)
      (by rwa [show a + 1 + k = a + (k + 1) by omega])]
    rfl

theorem sendLoopAux_all_net (o : Nat → AttemptResult) (d : Int) :
    ∀ (f a : Nat), 1 ≤ f →
      (∀ i, i < f → o (a + i) = AttemptResult.netError) →
      sendLoopAux o d a f = (some false, f, List.replicate (f - 1) d) := by
  intro f
  induction f with
  | zero => intro a h; omega
  | succ f ih =>
    intro a _ hner
    have ha : o a = AttemptResult.netError := by simpa using hner 0 (by omega)
    by_cases hf : f = 0
    · subst hf
      rw [sendLoopAux_succ_net_last o d a ha]
      rfl
    · rw [sendLoopAux_succ_net o d a f ha hf]
      rw [ih (a + 1) (by omega)
        (fun i hi => by
          have := hner (i + 1) (by omega)
          rwa [show a + (i + 1) = a + 1 + i by omega] at this)]
      rw [show f + 1 - 1 = (f - 1) + 1 by omega]
      rfl

theorem sendLoopAux_isSome (o : Nat → AttemptResult) (d : Int) :
    ∀ (f a : Nat), 1 ≤ f → ∃ b, (sendLoopAux o d a f).1 = some b := by
  intro f
  induction f with
  | zero => intro a h; omega
  | succ f ih =>
    intro a _
    cases ho : o a with
    | success => rw [sendLoopAux_succ_success o d a f ho]; exact ⟨true, rfl⟩
    | netError =>
      by_cases hf : f = 0
      · subst hf
        rw [sendLoopAux_succ_net_last o d a ho]
        exact ⟨false, rfl⟩
      · rw [sendLoopAux_succ_net o d a f ho hf]
        obtain ⟨b, hb⟩ := ih (a + 1) (by omega)
        exact ⟨b, hb⟩
    | otherError => rw [sendLoopAux_succ_other o d a f ho]; exact ⟨false, rfl⟩

end AprsWx

namespace AprsWx

/-! ## Claim C1 -/

/-- C1: the claim asserts exit status 0 iff encoding and the weather-packet
publish both succeed, non-zero otherwise — in particular non-zero when the
publisher returns `False` after exhausting its retries.  The code violates
this: when every one of the default three attempts fails with a network
error, `send_aprs_with_retry` returns `False` (here `(some false, 3, [5, 5])`:
three attempts, two 5-second inter-retry sleeps), `main` merely skips the
uptime-status branch, no exception reaches the outer handler, and `main`
returns `0`. -/
theorem c1_publish_failure_still_exits_zero :
    send_aprs_with_retry (fun _ => AttemptResult.netError) 3 5 = (some false, 3, [5, 5])
    ∧ mainModel (fun _ _ => 1) (Except.ok ⟨0, 0, 0, "X"⟩) (WxSource.parsed emptyRawWeather)
        ⟨1, 2, 3⟩ (fun _ => AttemptResult.netError) (fun _ => AttemptResult.success)
        (Except.ok "up") = 0 :=
  ⟨by decide, rfl⟩

/-! ## Claim C2 -/

/-- C2 counterexample: the claim asserts that humidity 100 renders as the
two-character string `"00"` (a wrap under the fixed field width).  It does
not: `zfill` pads but never truncates, so `str_or_dots(100.0, 2)` is the
three-character string `"100"`, not `"00"`. -/
theorem c2_humidity_100_not_wrapped :
    str_or_dots (some (PyNum.floatVal 100)) 2 = "100"
    ∧ str_or_dots (some (PyNum.floatVal 100)) 2 ≠ "00" := by
  have h : str_or_dots (some (PyNum.floatVal 100)) 2 = "100" := by
    simp only [str_or_dots]
    rw [rhe_hundred]
    decide
  refine ⟨h, ?_⟩
  rw [h]
  decide

/-- C2 (amended): a present humidity value of exactly 100 renders as the
three-character string `"100"` — the 2-digit field overflows, it does not
wrap to `"00"` — while every humidity value in 0..99 renders as its 2-digit
zero-padded decimal form. -/
theorem c2_humidity_rendering :
    str_or_dots (some (PyNum.floatVal 100)) 2 = "100"
    ∧ ∀ n : Nat, n < 100 →
        str_or_dots (some (PyNum.floatVal (n : ℚ))) 2
          = String.mk [Nat.digitChar (n / 10), Nat.digitChar (n % 10)] := by
  constructor
  · simp only [str_or_dots]
    rw [rhe_hundred]
    decide
  · intro n hn
    simp only [str_or_dots]
    rw [roundHalfEven_natCast]
    rw [show intDecimal (n : Int) = natDecimal n by
      rw [intDecimal, if_neg (by omega)]
      simp]
    exact zfill_two_of_digit n hn

/-- C2 witness: the amended theorem applied at humidity 7 yields `"07"`. -/
theorem c2_humidity_rendering_witness :
    str_or_dots (some (PyNum.floatVal ((7 : Nat) : ℚ))) 2 = "07" := by
  have h := c2_humidity_rendering.2 7 (by omega)
  rw [h]
  decide

/-! ## Claim C3 -/

/-- C3 counterexample: the claim asserts the encoded line's total length is
the same regardless of which fields are present or absent.  It is not: with
station `(0, 0, "X")` and time `01:02:03` on day 1, the observation with only
humidity = 100 present encodes to a 57-character line, while the observation
with every field absent encodes to a 56-character line (both observations
have absent fields, so both are in the claim's domain). -/
theorem c3_line_length_not_constant :
    (make_aprs_wx ⟨0, 0, 0, "X"⟩ ⟨1, 2, 3⟩
        ⟨none, none, some 100, none, none, none, none⟩).length = 57
    ∧ (make_aprs_wx ⟨0, 0, 0, "X"⟩ ⟨1, 2, 3⟩ emptyAprsData).length = 56 := by
  constructor
  · unfold make_aprs_wx
    rw [coord_zero_zero]
    simp only [Option.map_some', Option.map_none', str_or_dots]
    rw [rhe_hundred]
    decide
  · unfold make_aprs_wx
    rw [coord_zero_zero]
    decide

/-- C3 (amended): for in-range station coordinates and strftime components,
and provided every *present* field's rounded value occupies at most its
field width (nonnegative and below 10^width — the counterexample shows the
length is otherwise not constant), the encoded line has the constant length
55 + |stationType|, and each absent field contributes a run of dots of
exactly its specified width at that field's fixed position (the position
being the length of the preceding prefix: windDir at 27, windSpeed at 31,
gust at 35, temperature at 39, rain at 43, humidity at 47, pressure at 50). -/
theorem c3_dots_and_constant_length (config : StationConfig) (t : TimeTriple)
    (wd : AprsData)
    (hlat : |config.stationLat| ≤ 90) (hlon : |config.stationLon| ≤ 180)
    (hday : t.day < 100) (hhour : t.hour < 100) (hmin : t.minute < 100)
    (hwdir : ∀ n, wd.wind_dir = some n → 0 ≤ n ∧ n < 1000)
    (hwspd : ∀ q, wd.wind_speed = some q → 0 ≤ roundHalfEven q ∧ roundHalfEven q < 1000)
    (hgust : ∀ q, wd.wind_gust = some q → 0 ≤ roundHalfEven q ∧ roundHalfEven q < 1000)
    (htemp : ∀ q, wd.temperature = some q → 0 ≤ roundHalfEven q ∧ roundHalfEven q < 1000)
    (hrain : ∀ q, wd.rain_since_midnight = some q → 0 ≤ roundHalfEven q ∧ roundHalfEven q < 1000)
    (hhum : ∀ q, wd.humidity = some q → 0 ≤ roundHalfEven q ∧ roundHalfEven q < 100)
    (hpress : ∀ n, wd.pressure = some n → 0 ≤ n ∧ n < 100000) :
    (make_aprs_wx config t wd).length = 55 + config.stationType.length
    ∧ (wd.wind_dir = none → ∃ pre post,
        make_aprs_wx config t wd = pre ++ dots 3 ++ post ∧ pre.length = 27)
    ∧ (wd.wind_speed = none → ∃ pre post,
        make_aprs_wx config t wd = pre ++ dots 3 ++ post ∧ pre.length = 31)
    ∧ (wd.wind_gust = none → ∃ pre post,
        make_aprs_wx config t wd = pre ++ dots 3 ++ post ∧ pre.length = 35)
    ∧ (wd.temperature = none → ∃ pre post,
        make_aprs_wx config t wd = pre ++ dots 3 ++ post ∧ pre.length = 39)
    ∧ (wd.rain_since_midnight = none → ∃ pre post,
        make_aprs_wx config t wd = pre ++ dots 3 ++ post ∧ pre.length = 43)
    ∧ (wd.humidity = none → ∃ pre post,
        make_aprs_wx config t wd = pre ++ dots 2 ++ post ∧ pre.length = 47)
    ∧ (wd.pressure = none → ∃ pre post,
        make_aprs_wx config t wd = pre ++ dots 5 ++ post ∧ pre.length = 50) := by
  have hts : (timeStringZulu t).length = 6 := timeStringZulu_length t hday hhour hmin
  have hlat' : ((convert_coordinates_to_aprs_format config.stationLat
      config.stationLon).1).length = 8 :=
    latStr_length config.stationLat config.stationLon hlat
  have hlon' : ((convert_coordinates_to_aprs_format config.stationLat
      config.stationLon).2).length = 9 :=
    lonStr_length config.stationLat config.stationLon hlon
  have hF1 : (str_or_dots (wd.wind_dir.map PyNum.intVal) 3).length = 3 :=
    field_len_int _ 3 (by omega)
      (fun n hn => ⟨(hwdir n hn).1, by have := (hwdir n hn).2; omega⟩)
  have hF2 : (str_or_dots (wd.wind_speed.map PyNum.floatVal) 3).length = 3 :=
    field_len_float _ 3 (by omega)
      (fun q hq => ⟨(hwspd q hq).1, by have := (hwspd q hq).2; omega⟩)
  have hF3 : (str_or_dots (wd.wind_gust.map PyNum.floatVal) 3).length = 3 :=
    field_len_float _ 3 (by omega)
      (fun q hq => ⟨(hgust q hq).1, by have := (hgust q hq).2; omega⟩)
  have hF4 : (str_or_dots (wd.temperature.map PyNum.floatVal) 3).length = 3 :=
    field_len_float _ 3 (by omega)
      (fun q hq => ⟨(htemp q hq).1, by have := (htemp q hq).2; omega⟩)
  have hF5 : (str_or_dots (wd.rain_since_midnight.map PyNum.floatVal) 3).length = 3 :=
    field_len_float _ 3 (by omega)
      (fun q hq => ⟨(hrain q hq).1, by have := (hrain q hq).2; omega⟩)
  have hF6 : (str_or_dots (wd.humidity.map PyNum.floatVal) 2).length = 2 :=
    field_len_float _ 2 (by omega)
      (fun q hq => ⟨(hhum q hq).1, by have := (hhum q hq).2; omega⟩)
  have hF7 : (str_or_dots (wd.pressure.map PyNum.intVal) 5).length = 5 :=
    field_len_int _ 5 (by omega)
      (fun n hn => ⟨(hpress n hn).1, by have := (hpress n hn).2; omega⟩)
  refine ⟨?_, ?_, ?_, ?_, ?_, ?_, ?_, ?_⟩
  · unfold make_aprs_wx
    simp only [strLength_append]
    rw [hts, hlat', hlon', hF1, hF2, hF3, hF4, hF5, hF6, hF7]
    rw [show ("@" : String).length = 1 from rfl, show ("z" : String).length = 1 from rfl,
      show ("/" : String).length = 1 from rfl, show ("_" : String).length = 1 from rfl,
      show ("g" : String).length = 1 from rfl, show ("t" : String).length = 1 from rfl,
      show ("P" : String).length = 1 from rfl, show ("h" : String).length = 1 from rfl,
      show ("b" : String).length = 1 from rfl]
  · intro h
    refine ⟨"@" ++ timeStringZulu t ++ "z" ++
      (convert_coordinates_to_aprs_format config.stationLat config.stationLon).1 ++ "/" ++
      (convert_coordinates_to_aprs_format config.stationLat config.stationLon).2 ++ "_",
      "/" ++ str_or_dots (wd.wind_speed.map PyNum.floatVal) 3 ++ "g" ++
      str_or_dots (wd.wind_gust.map PyNum.floatVal) 3 ++ "t" ++
      str_or_dots (wd.temperature.map PyNum.floatVal) 3 ++ "P" ++
      str_or_dots (wd.rain_since_midnight.map PyNum.floatVal) 3 ++ "h" ++
      str_or_dots (wd.humidity.map PyNum.floatVal) 2 ++ "b" ++
      str_or_dots (wd.pressure.map PyNum.intVal) 5 ++ config.stationType, ?_, ?_⟩
    · unfold make_aprs_wx
      rw [h]
      simp only [Option.map_none', str_or_dots_none, strAppend_assoc]
    · simp only [strLength_append]
      rw [hts, hlat', hlon']
      rw [show ("@" : String).length = 1 from rfl, show ("z" : String).length = 1 from rfl,
        show ("/" : String).length = 1 from rfl, show ("_" : String).length = 1 from rfl]
  · intro h
    refine ⟨"@" ++ timeStringZulu t ++ "z" ++
      (convert_coordinates_to_aprs_format config.stationLat config.stationLon).1 ++ "/" ++
      (convert_coordinates_to_aprs_format config.stationLat config.stationLon).2 ++ "_" ++
      str_or_dots (wd.wind_dir.map PyNum.intVal) 3 ++ "/",
      "g" ++ str_or_dots (wd.wind_gust.map PyNum.floatVal) 3 ++ "t" ++
      str_or_dots (wd.temperature.map PyNum.floatVal) 3 ++ "P" ++
      str_or_dots (wd.rain_since_midnight.map PyNum.floatVal) 3 ++ "h" ++
      str_or_dots (wd.humidity.map PyNum.floatVal) 2 ++ "b" ++
      str_or_dots (wd.pressure.map PyNum.intVal) 5 ++ config.stationType, ?_, ?_⟩
    · unfold make_aprs_wx
      rw [h]
      simp only [Option.map_none', str_or_dots_none, strAppend_assoc]
    · simp only [strLength_append]
      rw [hts, hlat', hlon', hF1]
      rw [show ("@" : String).length = 1 from rfl, show ("z" : String).length = 1 from rfl,
        show ("/" : String).length = 1 from rfl, show ("_" : String).length = 1 from rfl]
  · intro h
    refine ⟨"@" ++ timeStringZulu t ++ "z" ++
      (convert_coordinates_to_aprs_format config.stationLat config.stationLon).1 ++ "/" ++
      (convert_coordinates_to_aprs_format config.stationLat config.stationLon).2 ++ "_" ++
      str_or_dots (wd.wind_dir.map PyNum.intVal) 3 ++ "/" ++
      str_or_dots (wd.wind_speed.map PyNum.floatVal) 3 ++ "g",
      "t" ++ str_or_dots (wd.temperature.map PyNum.floatVal) 3 ++ "P" ++
      str_or_dots (wd.rain_since_midnight.map PyNum.floatVal) 3 ++ "h" ++
      str_or_dots (wd.humidity.map PyNum.floatVal) 2 ++ "b" ++
      str_or_dots (wd.pressure.map PyNum.intVal) 5 ++ config.stationType, ?_, ?_⟩
    · unfold make_aprs_wx
      rw [h]
      simp only [Option.map_none', str_or_dots_none, strAppend_assoc]
    · simp only [strLength_append]
      rw [hts, hlat', hlon', hF1, hF2]
      rw [show ("@" : String).length = 1 from rfl, show ("z" : String).length = 1 from rfl,
        show ("/" : String).length = 1 from rfl, show ("_" : String).length = 1 from rfl,
        show ("g" : String).length = 1 from rfl]
  · intro h
    refine ⟨"@" ++ timeStringZulu t ++ "z" ++
      (convert_coordinates_to_aprs_format config.stationLat config.stationLon).1 ++ "/" ++
      (convert_coordinates_to_aprs_format config.stationLat config.stationLon).2 ++ "_" ++
      str_or_dots (wd.wind_dir.map PyNum.intVal) 3 ++ "/" ++
      str_or_dots (wd.wind_speed.map PyNum.floatVal) 3 ++ "g" ++
      str_or_dots (wd.wind_gust.map PyNum.floatVal) 3 ++ "t",
      "P" ++ str_or_dots (wd.rain_since_midnight.map PyNum.floatVal) 3 ++ "h" ++
      str_or_dots (wd.humidity.map PyNum.floatVal) 2 ++ "b" ++
      str_or_dots (wd.pressure.map PyNum.intVal) 5 ++ config.stationType, ?_, ?_⟩
    · unfold make_aprs_wx
      rw [h]
      simp only [Option.map_none', str_or_dots_none, strAppend_assoc]
    · simp only [strLength_append]
      rw [hts, hlat', hlon', hF1, hF2, hF3]
      rw [show ("@" : String).length = 1 from rfl, show ("z" : String).length = 1 from rfl,
        show ("/" : String).length = 1 from rfl, show ("_" : String).length = 1 from rfl,
        show ("g" : String).length = 1 from rfl, show ("t" : String).length = 1 from rfl]
  · intro h
    refine ⟨"@" ++ timeStringZulu t ++ "z" ++
      (convert_coordinates_to_aprs_format config.stationLat config.stationLon).1 ++ "/" ++
      (convert_coordinates_to_aprs_format config.stationLat config.stationLon).2 ++ "_" ++
      str_or_dots (wd.wind_dir.map PyNum.intVal) 3 ++ "/" ++
      str_or_dots (wd.wind_speed.map PyNum.floatVal) 3 ++ "g" ++
      str_or_dots (wd.wind_gust.map PyNum.floatVal) 3 ++ "t" ++
      str_or_dots (wd.temperature.map PyNum.floatVal) 3 ++ "P",
      "h" ++ str_or_dots (wd.humidity.map PyNum.floatVal) 2 ++ "b" ++
      str_or_dots (wd.pressure.map PyNum.intVal) 5 ++ config.stationType, ?_, ?_⟩
    · unfold make_aprs_wx
      rw [h]
      simp only [Option.map_none', str_or_dots_none, strAppend_assoc]
    · simp only [strLength_append]
      rw [hts, hlat', hlon', hF1, hF2, hF3, hF4]
      rw [show ("@" : String).length = 1 from rfl, show ("z" : String).length = 1 from rfl,
        show ("/" : String).length = 1 from rfl, show ("_" : String).length = 1 from rfl,
        show ("g" : String).length = 1 from rfl, show ("t" : String).length = 1 from rfl,
        show ("P" : String).length = 1 from rfl]
  · intro h
    refine ⟨"@" ++ timeStringZulu t ++ "z" ++
      (convert_coordinates_to_aprs_format config.stationLat config.stationLon).1 ++ "/" ++
      (convert_coordinates_to_aprs_format config.stationLat config.stationLon).2 ++ "_" ++
      str_or_dots (wd.wind_dir.map PyNum.intVal) 3 ++ "/" ++
      str_or_dots (wd.wind_speed.map PyNum.floatVal) 3 ++ "g" ++
      str_or_dots (wd.wind_gust.map PyNum.floatVal) 3 ++ "t" ++
      str_or_dots (wd.temperature.map PyNum.floatVal) 3 ++ "P" ++
      str_or_dots (wd.rain_since_midnight.map PyNum.floatVal) 3 ++ "h",
      "b" ++ str_or_dots (wd.pressure.map PyNum.intVal) 5 ++ config.stationType, ?_, ?_⟩
    · unfold make_aprs_wx
      rw [h]
      simp only [Option.map_none', str_or_dots_none, strAppend_assoc]
    · simp only [strLength_append]
      rw [hts, hlat', hlon', hF1, hF2, hF3, hF4, hF5]
      rw [show ("@" : String).length = 1 from rfl, show ("z" : String).length = 1 from rfl,
        show ("/" : String).length = 1 from rfl, show ("_" : String).length = 1 from rfl,
        show ("g" : String).length = 1 from rfl, show ("t" : String).length = 1 from rfl,
        show ("P" : String).length = 1 from rfl, show ("h" : String).length = 1 from rfl]
  · intro h
    refine ⟨"@" ++ timeStringZulu t ++ "z" ++
      (convert_coordinates_to_aprs_format config.stationLat config.stationLon).1 ++ "/" ++
      (convert_coordinates_to_aprs_format config.stationLat config.stationLon).2 ++ "_" ++
      str_or_dots (wd.wind_dir.map PyNum.intVal) 3 ++ "/" ++
      str_or_dots (wd.wind_speed.map PyNum.floatVal) 3 ++ "g" ++
      str_or_dots (wd.wind_gust.map PyNum.floatVal) 3 ++ "t" ++
      str_or_dots (wd.temperature.map PyNum.floatVal) 3 ++ "P" ++
      str_or_dots (wd.rain_since_midnight.map PyNum.floatVal) 3 ++ "h" ++
      str_or_dots (wd.humidity.map PyNum.floatVal) 2 ++ "b",
      config.stationType, ?_, ?_⟩
    · unfold make_aprs_wx
      rw [h]
      simp only [Option.map_none', str_or_dots_none, strAppend_assoc]
    · simp only [strLength_append]
      rw [hts, hlat', hlon', hF1, hF2, hF3, hF4, hF5, hF6]
      rw [show ("@" : String).length = 1 from rfl, show ("z" : String).length = 1 from rfl,
        show ("/" : String).length = 1 from rfl, show ("_" : String).length = 1 from rfl,
        show ("g" : String).length = 1 from rfl, show ("t" : String).length = 1 from rfl,
        show ("P" : String).length = 1 from rfl, show ("h" : String).length = 1 from rfl,
        show ("b" : String).length = 1 from rfl]

/-- C3 witness: the amended theorem applied at station `(0, 0, "X")`, time
`01:02:03`, and the observation with only humidity 55 present: the line
length is 56 = 55 + 1. -/
theorem c3_dots_and_constant_length_witness :
    (make_aprs_wx ⟨0, 0, 0, "X"⟩ ⟨1, 2, 3⟩
      ⟨none, none, some ((55 : Nat) : ℚ), none, none, none, none⟩).length = 56 := by
  have h := c3_dots_and_constant_length ⟨0, 0, 0, "X"⟩ ⟨1, 2, 3⟩
    ⟨none, none, some ((55 : Nat) : ℚ), none, none, none, none⟩
    (by norm_num) (by norm_num) (by decide) (by decide) (by decide)
    (fun n hn => by cases hn)
    (fun q hq => by cases hq)
    (fun q hq => by cases hq)
    (fun q hq => by cases hq)
    (fun q hq => by cases hq)
    (fun q hq => by
      obtain rfl : ((55 : Nat) : ℚ) = q := Option.some.inj hq
      rw [roundHalfEven_natCast]
      omega)
    (fun n hn => by cases hn)
  exact h.1

end AprsWx

namespace AprsWx

/-! ## Claim C4 -/

/-- C4: for any `max_retries = N ≥ 1` and delay `d`: if the first `k < N`
attempts fail with network-category errors and attempt `k+1` succeeds, the
retrying publisher returns `True` after exactly `k+1` connection attempts
with the configured delay slept between consecutive attempts (`k` sleeps of
`d`); and if all `N` attempts fail with network-category errors it returns
`False` after exactly `N` attempts (`N-1` inter-retry sleeps). -/
theorem c4_retry_until_success_or_exhaustion (outcomes : Nat → AttemptResult)
    (N d : Int) (k : Nat) :
    ((k : Int) < N →
      (∀ i, i < k → outcomes i = AttemptResult.netError) →
      outcomes k = AttemptResult.success →
      send_aprs_with_retry outcomes N d = (some true, k + 1, List.replicate k d))
    ∧ (1 ≤ N →
      (∀ i : Nat, (i : Int) < N → outcomes i = AttemptResult.netError) →
      send_aprs_with_retry outcomes N d
        = (some false, N.toNat, List.replicate (N.toNat - 1) d)) := by
  constructor
  · intro hk hner hsucc
    unfold send_aprs_with_retry
    exact sendLoopAux_success_after outcomes d k 0 N.toNat (by omega)
      (fun i hi => by simpa using hner i hi)
      (by simpa using hsucc)
  · intro hN hner
    unfold send_aprs_with_retry
    exact sendLoopAux_all_net outcomes d N.toNat 0 (by omega)
      (fun i hi => by simpa using hner i (by omega))

/-- C4 witness: with `N = 3, d = 5` — two injected network faults then
success gives `(True, 3 attempts, sleeps [5, 5])`; all-faults gives
`(False, 3 attempts, sleeps [5, 5])`. -/
theorem c4_retry_until_success_or_exhaustion_witness :
    send_aprs_with_retry
        (fun i => if i < 2 then AttemptResult.netError else AttemptResult.success) 3 5
      = (some true, 3, [5, 5])
    ∧ send_aprs_with_retry (fun _ => AttemptResult.netError) 3 5
      = (some false, 3, [5, 5]) := by
  constructor
  · exact (c4_retry_until_success_or_exhaustion
      (fun i => if i < 2 then AttemptResult.netError else AttemptResult.success) 3 5 2).1
      (by omega) (fun i hi => by rw [if_pos hi]) rfl
  · exact (c4_retry_until_success_or_exhaustion
      (fun _ => AttemptResult.netError) 3 5 0).2 (by omega) (fun i _ => rfl)

/-! ## Claim C5 -/

/-- C5: if the first publish attempt raises an exception outside the
network-error category, the retrying publisher returns `False` immediately:
exactly one attempt, no retry, no inter-retry sleep, for every
`max_retries ≥ 1`. -/
theorem c5_nonnetwork_fail_fast (outcomes : Nat → AttemptResult) (N d : Int)
    (hN : 1 ≤ N) (h : outcomes 0 = AttemptResult.otherError) :
    send_aprs_with_retry outcomes N d = (some false, 1, []) := by
  unfold send_aprs_with_retry
  obtain ⟨f, hf⟩ : ∃ f, N.toNat = f + 1 := ⟨N.toNat - 1, by omega⟩
  rw [hf, sendLoopAux_succ_other outcomes d 0 f h]

/-- C5 witness: with `max_retries = 7`, a non-network fault on the first
attempt returns `False` after one attempt and no sleeps. -/
theorem c5_nonnetwork_fail_fast_witness :
    send_aprs_with_retry (fun _ => AttemptResult.otherError) 7 9
      = (some false, 1, []) :=
  c5_nonnetwork_fail_fast (fun _ => AttemptResult.otherError) 7 9 (by omega) rfl

/-! ## Claim C6 -/

/-- C6: the claim asserts the `DDHHMMz` field is computed from current UTC.
The code computes `time.strftime("%d%H%M")`, which formats the process's
*local* time (the code's own comment says Zulu/UTC, contradicting the call).
At a clock state where local time is day 12 14:30 and UTC is day 12 12:30
(e.g. a UTC+2 timezone), the encoder emits `@121430z…` — the local-time
field — while the claim requires the UTC rendering `121230`. -/
theorem c6_time_field_local_not_utc :
    make_aprs_wx ⟨0, 0, 0, "X"⟩ ⟨12, 14, 30⟩ emptyAprsData
      = "@121430z0000.00N/00000.00E_.../...g...t...P...h..b.....X"
    ∧ timeStringZulu ⟨12, 12, 30⟩ = "121230"
    ∧ ("121430" : String) ≠ ("121230" : String) := by
  refine ⟨?_, by decide, by decide⟩
  unfold make_aprs_wx
  rw [coord_zero_zero]
  decide

/-! ## Claim C7 -/

/-- C7 counterexample: the claim asserts that every exit path of a publish
attempt performs shutdown and close once the socket is opened.  It does not:
the `try` block has no `finally` — when the packet `send` raises, control
jumps to the `except` handler with the socket connected but never shut down
or closed. -/
theorem c7_socket_leak_on_send_failure :
    SessionStep.connect ∈ attemptTrace (some SessionStep.sendPacket)
    ∧ SessionStep.shutdownSock ∉ attemptTrace (some SessionStep.sendPacket)
    ∧ SessionStep.closeSock ∉ attemptTrace (some SessionStep.sendPacket) := by
  decide

/-- C7 (amended): shutdown and close are performed exactly on the fully
successful attempt: `close` is in the attempt's trace iff no step raised,
and `shutdown` iff no step raised before it — an attempt that raises after
the socket is opened ends without releasing it. -/
theorem c7_cleanup_only_on_success (failAt : Option SessionStep) :
    (SessionStep.closeSock ∈ attemptTrace failAt ↔ failAt = none)
    ∧ (SessionStep.shutdownSock ∈ attemptTrace failAt ↔
        (failAt = none ∨ failAt = some SessionStep.closeSock)) := by
  cases failAt with
  | none => decide
  | some s => cases s <;> decide

/-! ## Claim C8 -/

/-- C8 counterexample: the claim asserts that a field value that cannot be
converted to its numeric type is fatal for the run.  It is not: the
`except Exception` handler catches the conversion error and returns the
all-`None` dictionary, so ingestion yields a successful (empty) result and
the run continues. -/
theorem c8_unconvertible_field_swallowed :
    get_wx_data (fun _ _ => 1)
      (WxSource.parsed ⟨some RawVal.malformed, none, none, none, none, none,
        none, none, none, none, none, none⟩) 0 = Except.ok emptyAprsData := rfl

/-- C8 (amended): a missing observation file and unparseable JSON are fatal
— they propagate as errors out of ingestion — but an unconvertible field
value is swallowed by the catch-all handler, which returns the all-`None`
observation; a successfully parsed source never yields a failing result. -/
theorem c8_error_propagation (pw : ℚ → ℚ → ℚ) (elevation : ℚ) (w : RawWeather) :
    get_wx_data pw WxSource.missing elevation = Except.error WxError.fileNotFound
    ∧ get_wx_data pw WxSource.invalidJson elevation = Except.error WxError.invalidFormat
    ∧ (processRaw pw w elevation = Except.error () →
        get_wx_data pw (WxSource.parsed w) elevation = Except.ok emptyAprsData)
    ∧ ∀ e, get_wx_data pw (WxSource.parsed w) elevation ≠ Except.error e := by
  refine ⟨rfl, rfl, ?_, ?_⟩
  · intro h
    simp [get_wx_data, h]
  · intro e
    cases hp : processRaw pw w elevation with
    | ok d => simp [get_wx_data, hp]
    | error u => simp [get_wx_data, hp]

/-- C8 witness: the amended theorem at a concrete malformed-temperature
observation and at the missing-file source. -/
theorem c8_error_propagation_witness :
    get_wx_data (fun _ _ => 1) WxSource.missing 0 = Except.error WxError.fileNotFound
    ∧ get_wx_data (fun _ _ => 1)
        (WxSource.parsed ⟨some RawVal.malformed, none, none, none, none, none,
          none, none, none, none, none, none⟩) 0 = Except.ok emptyAprsData :=
  ⟨(c8_error_propagation (fun _ _ => 1) 0 emptyRawWeather).1,
    (c8_error_propagation (fun _ _ => 1) 0
      ⟨some RawVal.malformed, none, none, none, none, none,
        none, none, none, none, none, none⟩).2.2.1 rfl⟩

/-! ## Claim C9 -/

/-- C9: coordinate formatting maps `(0.0, 0.0)` to
`("0000.00N", "00000.00E")`; and for `|lat| ≤ 90`, `|lon| ≤ 180` the
latitude string is the 2-digit zero-padded integer-degree part of `abs lat`
followed by the fractional minutes `(abs lat - floor (abs lat)) * 60`
formatted to width 5 with 2 decimals, then `N`/`S` by sign (total width 8),
and the longitude string likewise with 3-digit degrees and `E`/`W` (total
width 9). -/
theorem c9_coordinate_formatting :
    convert_coordinates_to_aprs_format 0 0 = ("0000.00N", "00000.00E")
    ∧ ∀ lat lon : ℚ, |lat| ≤ 90 → |lon| ≤ 180 →
        convert_coordinates_to_aprs_format lat lon
          = (zfill (natDecimal ⌊|lat|⌋.toNat) 2 ++
              formatMinutes ((|lat| - (⌊|lat|⌋.toNat : ℚ)) * 60) 5 ++
              (if 0 ≤ lat then "N" else "S"),
            zfill (natDecimal ⌊|lon|⌋.toNat) 3 ++
              formatMinutes ((|lon| - (⌊|lon|⌋.toNat : ℚ)) * 60) 5 ++
              (if 0 ≤ lon then "E" else "W"))
        ∧ ((convert_coordinates_to_aprs_format lat lon).1).length = 8
        ∧ ((convert_coordinates_to_aprs_format lat lon).2).length = 9 := by
  refine ⟨coord_zero_zero, ?_⟩
  intro lat lon hlat hlon
  exact ⟨rfl, latStr_length lat lon hlat, lonStr_length lat lon hlon⟩

/-- C9 witness: the theorem applied at the spec's example coordinates
`(37.4025, -122.1392)`: the strings have widths 8 and 9. -/
theorem c9_coordinate_formatting_witness :
    ((convert_coordinates_to_aprs_format 37.4025 (-122.1392)).1).length = 8
    ∧ ((convert_coordinates_to_aprs_format 37.4025 (-122.1392)).2).length = 9 := by
  have h := c9_coordinate_formatting.2 37.4025 (-122.1392)
    (by rw [abs_of_nonneg (by norm_num)]; norm_num)
    (by rw [abs_of_nonpos (by norm_num)]; norm_num)
  exact ⟨h.2.1, h.2.2⟩

/-! ## Claim C10 -/

/-- C10: calling the retrying publisher with `max_retries ≤ 0` makes the
loop body never execute — zero attempts — and the function falls off the
loop returning Python `None` rather than a boolean; a boolean return value
is guaranteed exactly under the precondition `max_retries ≥ 1`. -/
theorem c10_nonpositive_retries_returns_none (outcomes : Nat → AttemptResult)
    (d : Int) :
    (∀ N : Int, N ≤ 0 → send_aprs_with_retry outcomes N d = (none, 0, []))
    ∧ (∀ N : Int, 1 ≤ N → ∃ b, (send_aprs_with_retry outcomes N d).1 = some b) := by
  constructor
  · intro N hN
    unfold send_aprs_with_retry
    rw [show N.toNat = 0 by omega]
    rfl
  · intro N hN
    unfold send_aprs_with_retry
    exact sendLoopAux_isSome outcomes d N.toNat 0 (by omega)

/-- C10 witness: the theorem at `max_retries = -1` (returns `None` with zero
attempts) and at `max_retries = 3` (returns a boolean). -/
theorem c10_nonpositive_retries_returns_none_witness :
    send_aprs_with_retry (fun _ => AttemptResult.success) (-1) 5 = (none, 0, [])
    ∧ ∃ b, (send_aprs_with_retry (fun _ => AttemptResult.success) 3 5).1 = some b :=
  ⟨(c10_nonpositive_retries_returns_none (fun _ => AttemptResult.success) 5).1 (-1)
      (by omega),
    (c10_nonpositive_retries_returns_none (fun _ => AttemptResult.success) 5).2 3
      (by omega)⟩

end AprsWx
